import Mathlib

/-!
Shallow embedding of the vision-box service gateway access-control subsystem
(`backend/app/core/middleware.py`, `backend/app/models/published_service.py`,
`backend/app/models/service_token.py`, `backend/app/models/service_call.py`,
`backend/app/api/v1/service_gateway.py`) together with theorems checking the
natural-language specification against it.

Modelling conventions:
* wall-clock instants (`time.time()`, `datetime.utcnow()`) are rationals;
* Python `int(x)` truncation toward zero on a rational is `py_int`;
* the SHA-256 digest of the external `hashlib` library is an abstract
  parameter `hashFn : String → String`;
* `json.loads` applied to an IP whitelist column is an abstract parameter
  returning a `JsonListOutcome` (decode error, non-list value, or the string
  elements of a list — a string client IP can only equal string elements);
* Python string operations (and `int(s)` / `str(n)` conversions) are
  modelled structurally over character lists (`py_lower`, `py_split`,
  `py_to_int`, ...) so they evaluate on concrete inputs;
* JSON-encoded list columns that are only ever written through their
  setters (`allowed_formats`, `detection_classes`) are stored parsed, as
  `Option (List String)`; the `ip_whitelist` column is kept raw because the
  middleware parses it on every request and tolerates malformed contents.
-/

namespace VisionBox

/-- Python `int()` on a rational: truncation toward zero. -/
def py_int (q : ℚ) : Int :=
  if q < 0 then -⌊-q⌋ else ⌊q⌋

/-- Python `max(a, b)`: the larger argument, the first one on a tie. -/
def py_max (a b : Int) : Int :=
  if a < b then b else a

/-- Python truthiness of an optional string: `None` and `""` are falsy. -/
def truthy_str : Option String → Option String
  | some s => if s = "" then none else some s
  | none => none

/-! ## Python string operations, modelled structurally over character lists
    (the core string functions are not used inside the model so that every
    definition evaluates on concrete inputs) -/

/-- `str.lower()` (the source only lowercases ASCII header names and file
    extensions). -/
def py_lower (s : String) : String :=
  String.mk (s.data.map Char.toLower)

/-- `str.startswith(p)`. -/
def str_starts (s p : String) : Bool :=
  p.data.isPrefixOf s.data

/-- `str.endswith(p)`. -/
def str_ends (s p : String) : Bool :=
  p.data.reverse.isPrefixOf s.data.reverse

/-- `s[n:]` for a nonnegative index. -/
def py_drop (s : String) (n : Nat) : String :=
  String.mk (s.data.drop n)

/-- `str.split(c)` on a single-character separator, over character lists. -/
def split_char (c : Char) : List Char → List (List Char)
  | [] => [[]]
  | x :: xs =>
    match split_char c xs with
    | [] => [[]]
    | y :: ys => if x == c then [] :: y :: ys else (x :: y) :: ys

/-- `str.split(c)` on a single-character separator. -/
def py_split (s : String) (c : Char) : List String :=
  (split_char c s.data).map String.mk

/-- `str.strip()` with no argument: remove surrounding whitespace. -/
def py_strip (s : String) : String :=
  String.mk (((s.data.dropWhile Char.isWhitespace).reverse.dropWhile
    Char.isWhitespace).reverse)

/-- Python `int(s)` on a string: surrounding whitespace, an optional sign,
    then at least one ASCII digit. -/
def py_to_int (s : String) : Option Int :=
  let cs := (py_strip s).data
  let signed : Int × List Char :=
    match cs with
    | '-' :: rest => (-1, rest)
    | '+' :: rest => (1, rest)
    | _ => (1, cs)
  if signed.2 ≠ [] ∧ signed.2.all Char.isDigit then
    some (signed.1 *
      ((signed.2.foldl (fun acc c => 10 * acc + (c.toNat - 48)) (0 : Nat) : Nat) : Int))
  else none

/-- Decimal digits of a natural number, most significant first; the fuel
    argument is always sufficient at `n + 1`. -/
def nat_digits_aux : Nat → Nat → List Char
  | 0, _ => []
  | fuel + 1, n =>
    if n < 10 then [Char.ofNat (48 + n)]
    else nat_digits_aux fuel (n / 10) ++ [Char.ofNat (48 + n % 10)]

/-- Python `str()` of a natural number. -/
def py_str_nat (n : Nat) : String :=
  String.mk (nat_digits_aux (n + 1) n)

/-- Python `str()` of an integer. -/
def py_str_int (n : Int) : String :=
  if n < 0 then String.mk ('-' :: nat_digits_aux ((-n).toNat + 1) (-n).toNat)
  else py_str_nat n.toNat

example : py_to_int "0" = some 0 := by decide
example : py_to_int " 42 " = some 42 := by decide
example : py_to_int "x1" = none := by decide
example : py_str_int 1 = "1" := by decide
example : py_split "a//b" '/' = ["a", "", "b"] := by decide

/-! ## Sliding-window rate limiter (`RateLimiter` in `app/core/middleware.py`) -/

/-- The rate-limit metadata dictionary returned by `RateLimiter.is_allowed`. -/
structure RateInfo where
  limit : Int
  remaining : Int
  reset : Int
  current : Nat
deriving DecidableEq

/-- In-process rate limiter state: per-key admission timestamps
    (`defaultdict(list)`, empty list for unseen keys) and the time of the
    last periodic cleanup. -/
structure RateLimiter where
  requests : String → List ℚ
  last_cleanup : ℚ

/-- `self.cleanup_interval = 300` set in `RateLimiter.__init__`. -/
def RateLimiter.cleanup_interval : ℚ := 300

/-- A limiter as constructed by `RateLimiter.__init__` at time `t0`. -/
def RateLimiter.init (t0 : ℚ) : RateLimiter :=
  { requests := fun _ => [], last_cleanup := t0 }

/-- `RateLimiter._cleanup_expired_records`: keep only timestamps newer than
    one hour (`cutoff = now - 3600`, entries with `req_time > cutoff`).
    Deleting a key whose list became empty is the same, in the functional
    representation, as storing the empty list. -/
def RateLimiter.cleanup_expired_records (rl : RateLimiter) (now : ℚ) : RateLimiter :=
  { rl with requests := fun k => (rl.requests k).filter (fun t => now - 3600 < t) }

/-- `RateLimiter.is_allowed(key, limit, window)`: returns the decision, the
    info dictionary and the updated limiter.

    In the source, `requests_in_window` and `self.requests[key]` alias the
    same list object after line `self.requests[key] = requests_in_window`,
    so the `append(now)` performed on admission is visible to the
    truthiness test that picks the reset time; `new_list` reproduces that. -/
def RateLimiter.is_allowed (rl : RateLimiter) (key : String) (limit : Int)
    (window : ℚ) (now : ℚ) : Bool × RateInfo × RateLimiter :=
  let rl1 := if now - rl.last_cleanup > RateLimiter.cleanup_interval then
      { rl.cleanup_expired_records now with last_cleanup := now }
    else rl
  let window_start := now - window
  let requests_in_window := (rl1.requests key).filter (fun t => window_start < t)
  let current_count := requests_in_window.length
  let allowed : Bool := decide ((current_count : Int) < limit)
  let new_list := if allowed then requests_in_window ++ [now] else requests_in_window
  let reset_time : Int := if new_list.isEmpty then py_int now else py_int (now + window)
  let remaining : Int := py_max 0 (limit - current_count - (if allowed then 1 else 0))
  (allowed,
   { limit := limit
     remaining := remaining
     reset := reset_time
     current := current_count + (if allowed then 1 else 0) },
   { rl1 with requests := Function.update rl1.requests key new_list })

/-- Run a sequence of `is_allowed` calls for one key, reporting whether
    every call was admitted. -/
def RateLimiter.run_calls (rl : RateLimiter) (key : String) (limit : Int)
    (window : ℚ) : List ℚ → RateLimiter × Bool
  | [] => (rl, true)
  | t :: ts =>
    let r := rl.is_allowed key limit window t
    let rest := RateLimiter.run_calls r.2.2 key limit window ts
    (rest.1, r.1 && rest.2)

example : ((RateLimiter.init 0).is_allowed "k" 2 60 5).1 = true := by
  norm_num [RateLimiter.is_allowed, RateLimiter.init, RateLimiter.cleanup_interval]

example : ((RateLimiter.init 0).is_allowed "k" 0 60 5).1 = false := by
  norm_num [RateLimiter.is_allowed, RateLimiter.init, RateLimiter.cleanup_interval]

example : ((RateLimiter.init 0).is_allowed "k" 2 60 5).2.1 =
    { limit := 2, remaining := 1, reset := 65, current := 1 } := by
  norm_num [RateLimiter.is_allowed, RateLimiter.init, RateLimiter.cleanup_interval,
    py_max, py_int]

/-! ### Window-filtering lemmas -/

/-- Filtering by a stricter lower bound after a looser one is the same as
    filtering by the stricter bound alone. -/
lemma filter_lt_filter_lt (l : List ℚ) (a b : ℚ) (h : b ≤ a) :
    (l.filter (fun t => decide (b < t))).filter (fun t => decide (a < t)) =
      l.filter (fun t => decide (a < t)) := by
  rw [List.filter_filter]
  refine List.filter_congr ?_
  intro x _
  by_cases hx : a < x
  · simp [hx, lt_of_le_of_lt h hx]
  · simp [hx]

/-- Characterization of one `is_allowed` call for windows that do not exceed
    the one-hour cleanup retention horizon: the decision, the stored list for
    the key, and the reset time, all in terms of the pre-call window. -/
lemma is_allowed_proj (rl : RateLimiter) (key : String) (L : Int) (W now : ℚ)
    (hW : W ≤ 3600) :
    (rl.is_allowed key L W now).1
        = decide ((((rl.requests key).filter (fun t => decide (now - W < t))).length : Int) < L) ∧
    (rl.is_allowed key L W now).2.2.requests key
        = (if (((rl.requests key).filter (fun t => decide (now - W < t))).length : Int) < L
           then (rl.requests key).filter (fun t => decide (now - W < t)) ++ [now]
           else (rl.requests key).filter (fun t => decide (now - W < t))) ∧
    (rl.is_allowed key L W now).2.1.reset
        = (if (rl.requests key).filter (fun t => decide (now - W < t)) = [] ∧
             ¬ ((((rl.requests key).filter (fun t => decide (now - W < t))).length : Int) < L)
           then py_int now else py_int (now + W)) := by
  have hsub : now - 3600 ≤ now - W := by linarith
  simp only [RateLimiter.is_allowed]
  by_cases hc : now - rl.last_cleanup > RateLimiter.cleanup_interval
  · simp only [hc, if_true, RateLimiter.cleanup_expired_records,
      filter_lt_filter_lt _ _ _ hsub, Function.update_same]
    by_cases ha : (((rl.requests key).filter (fun t => decide (now - W < t))).length : Int) < L
    · simp [ha, List.isEmpty_iff]
    · simp [ha, List.isEmpty_iff]
  · simp only [hc, if_false, Function.update_same]
    by_cases ha : (((rl.requests key).filter (fun t => decide (now - W < t))).length : Int) < L
    · simp [ha, List.isEmpty_iff]
    · simp [ha, List.isEmpty_iff]

/-- Running a batch of calls whose timestamps are pairwise inside each
    later call's window admits every call, and the stored history for the
    key afterwards is exactly the previous history followed by the batch. -/
lemma run_calls_all_admitted (key : String) (L : Int) (W : ℚ) (hW : W ≤ 3600) :
    ∀ (ts : List ℚ) (rl : RateLimiter) (acc : List ℚ),
      rl.requests key = acc →
      (acc.length : Int) + ts.length ≤ L →
      List.Pairwise (fun a b : ℚ => b - W < a) (acc ++ ts) →
      (rl.run_calls key L W ts).2 = true ∧
      (rl.run_calls key L W ts).1.requests key = acc ++ ts := by
  intro ts
  induction ts with
  | nil =>
    intro rl acc hacc _ _
    simpa [RateLimiter.run_calls] using hacc
  | cons t ts ih =>
    intro rl acc hacc hlen hpw
    have hwin : ∀ x ∈ acc, t - W < x := by
      intro x hx
      exact (List.pairwise_append.mp hpw).2.2 x hx t (by simp)
    have hfilter : acc.filter (fun x => decide (t - W < x)) = acc :=
      List.filter_eq_self.mpr (fun x hx => by simpa using hwin x hx)
    have hlt : (acc.length : Int) < L := by
      have hts : (0 : Int) ≤ ts.length := Int.natCast_nonneg _
      have : (acc.length : Int) + ((ts.length : Int) + 1) ≤ L := by
        simpa [Nat.cast_add, add_assoc] using hlen
      linarith
    obtain ⟨hfst, hreq, -⟩ := is_allowed_proj rl key L W t hW
    have hallow : (rl.is_allowed key L W t).1 = true := by
      rw [hfst, hacc, hfilter]
      simpa using hlt
    have hreq' : (rl.is_allowed key L W t).2.2.requests key = acc ++ [t] := by
      rw [hreq, hacc, hfilter, if_pos hlt]
    have hnext := ih (rl.is_allowed key L W t).2.2 (acc ++ [t]) hreq'
      (by simpa [add_assoc, add_comm, add_left_comm] using hlen)
      (by simpa [List.append_assoc] using hpw)
    refine ⟨?_, ?_⟩
    · simp only [RateLimiter.run_calls, hallow, hnext.1, Bool.and_self]
    · simpa [RateLimiter.run_calls, List.append_assoc] using hnext.2

/-- C1 counterexample: with a window longer than the one-hour retention
    horizon, the periodic cleanup can evict a timestamp that is still inside
    the trailing window, so a call is admitted even though the number of
    previously admitted timestamps inside the window is not below the limit.
    Key "k", limit 1, window 4000 s: a call admitted at time 0 is still
    inside the window of a call at time 3601, yet the time-3601 call is also
    admitted because the cleanup (triggered since 3601 - 0 > 300) dropped
    the old timestamp. -/
theorem rate_limiter_admission_counterexample :
    ((RateLimiter.init 0).is_allowed "k" 1 4000 0).1 = true ∧
    (((RateLimiter.init 0).is_allowed "k" 1 4000 0).2.2).requests "k" = [(0 : ℚ)] ∧
    (((RateLimiter.init 0).is_allowed "k" 1 4000 0).2.2.is_allowed "k" 1 4000 3601).1 = true ∧
    ¬ ((([(0 : ℚ)].filter (fun t => decide ((3601 : ℚ) - 4000 < t))).length : Int) < 1) := by
  refine ⟨?_, ?_, ?_, by norm_num⟩ <;>
    norm_num [RateLimiter.is_allowed, RateLimiter.init, RateLimiter.cleanup_interval,
      RateLimiter.cleanup_expired_records, py_int, py_max]

/-- C1 (amended): for windows within the one-hour cleanup retention horizon
    (the gateway always uses a 60-second window), (i) a call is admitted iff
    the number of timestamps still recorded for the key inside the trailing
    window — each recorded exactly when a call was admitted — is strictly
    below the limit; (ii) after exactly L admitted calls within the window,
    a further call inside the same window is denied; (iii) a call issued
    once the window has elapsed since the oldest recorded timestamp is
    admitted again. -/
theorem rate_limiter_sliding_window_admission :
    (∀ (rl : RateLimiter) (key : String) (L : Int) (W now : ℚ), W ≤ 3600 →
       ((rl.is_allowed key L W now).1 = true ↔
         ((((rl.requests key).filter (fun t => decide (now - W < t))).length : Int) < L)) ∧
       ((rl.is_allowed key L W now).1 = false →
         (rl.is_allowed key L W now).2.2.requests key =
           (rl.requests key).filter (fun t => decide (now - W < t)))) ∧
    (∀ (key : String) (W : ℚ) (rl₀ : RateLimiter) (ts : List ℚ) (t : ℚ),
       W ≤ 3600 → rl₀.requests key = [] → ts ≠ [] →
       List.Pairwise (fun a b : ℚ => b - W < a) (ts ++ [t]) →
       (rl₀.run_calls key (ts.length : Int) W ts).2 = true ∧
       ((rl₀.run_calls key (ts.length : Int) W ts).1.is_allowed key
           (ts.length : Int) W t).1 = false) ∧
    (∀ (rl : RateLimiter) (key : String) (L : Int) (W t₁ t' : ℚ) (rest : List ℚ),
       W ≤ 3600 → rl.requests key = t₁ :: rest → (rest.length : Int) < L →
       t₁ + W ≤ t' →
       (rl.is_allowed key L W t').1 = true) := by
  refine ⟨?_, ?_, ?_⟩
  · intro rl key L W now hW
    obtain ⟨hfst, hreq, -⟩ := is_allowed_proj rl key L W now hW
    constructor
    · rw [hfst]; exact decide_eq_true_iff
    · intro hdeny
      rw [hfst] at hdeny
      rw [hreq, if_neg (by simpa using hdeny)]
  · intro key W rl₀ ts t hW hempty _ hpw
    have hpw' : List.Pairwise (fun a b : ℚ => b - W < a) ts :=
      (List.pairwise_append.mp hpw).1
    have htrace := run_calls_all_admitted key (ts.length : Int) W hW ts rl₀ []
      (by simpa using hempty) (by simp) (by simpa using hpw')
    refine ⟨htrace.1, ?_⟩
    have hwin : ∀ x ∈ ts, t - W < x := fun x hx =>
      (List.pairwise_append.mp hpw).2.2 x hx t (by simp)
    obtain ⟨hfst, -, -⟩ := is_allowed_proj
      (rl₀.run_calls key (ts.length : Int) W ts).1 key (ts.length : Int) W t hW
    rw [hfst, htrace.2]
    have hfilter : ts.filter (fun x => decide (t - W < x)) = ts :=
      List.filter_eq_self.mpr (fun x hx => by simpa using hwin x hx)
    simp [hfilter]
  · intro rl key L W t₁ t' rest hW hreq hrest hle
    obtain ⟨hfst, -, -⟩ := is_allowed_proj rl key L W t' hW
    rw [hfst, hreq]
    have hnot : ¬ (t' - W < t₁) := by linarith
    have : ((t₁ :: rest).filter (fun x => decide (t' - W < x))).length ≤ rest.length := by
      rw [List.filter_cons, if_neg (by simpa using hnot)]
      exact List.length_filter_le _ _
    have : (((t₁ :: rest).filter (fun x => decide (t' - W < x))).length : Int) < L := by
      calc (((t₁ :: rest).filter (fun x => decide (t' - W < x))).length : Int)
          ≤ (rest.length : Int) := by exact_mod_cast this
        _ < L := hrest
    simpa using this

/-- Witness for `rate_limiter_sliding_window_admission`: a fresh limiter,
    limit 2, window 60 s; calls at times 0 and 1 are admitted, a third call
    at time 2 is denied. -/
theorem rate_limiter_sliding_window_admission_witness :
    ((RateLimiter.init 0).run_calls "k" (([(0 : ℚ), 1].length : Nat) : Int) 60 [0, 1]).2 = true ∧
    (((RateLimiter.init 0).run_calls "k" (([(0 : ℚ), 1].length : Nat) : Int) 60
        [0, 1]).1.is_allowed "k" (([(0 : ℚ), 1].length : Nat) : Int) 60 2).1 = false := by
  exact rate_limiter_sliding_window_admission.2.1 "k" 60 (RateLimiter.init 0) [0, 1] 2
    (by norm_num) rfl (by simp)
    (by norm_num [List.pairwise_cons])

/-- The reset time as the specification words it: computed from the oldest
    timestamp still inside the window when the window is non-empty, and the
    current time when it is empty. Stated for comparison with the reset time
    the code actually returns. -/
def spec_reset_time (history : List ℚ) (now window : ℚ) : Int :=
  match (history.filter (fun t => decide (now - window < t))).min? with
  | some oldest => py_int (oldest + window)
  | none => py_int now

/-- C8 counterexample: with one recorded timestamp 10 still inside the
    window (limit 5, window 60 s, call at time 30), the code returns
    `int(now + window) = 90`, not a value computed from the oldest
    timestamp (`int(oldest + window) = 70`). -/
theorem reset_time_counterexample :
    (({ requests := Function.update (fun _ => []) "k" [10], last_cleanup := 30 } :
        RateLimiter).is_allowed "k" 5 60 30).2.1.reset = 90 ∧
    spec_reset_time [10] 30 60 = 70 ∧
    (({ requests := Function.update (fun _ => []) "k" [10], last_cleanup := 30 } :
        RateLimiter).is_allowed "k" 5 60 30).2.1.reset ≠ spec_reset_time [10] 30 60 := by
  refine ⟨?h1, ?h2, ?h3⟩
  case h1 =>
    norm_num [RateLimiter.is_allowed, RateLimiter.cleanup_interval, py_int, py_max]
  case h2 =>
    norm_num [spec_reset_time, List.min?, py_int]
  case h3 =>
    norm_num [RateLimiter.is_allowed, RateLimiter.cleanup_interval, py_int, py_max,
      spec_reset_time, List.min?]

/-- C8 (amended): for windows within the cleanup retention horizon, the
    reset time is `int(now + window)` whenever the stored window list is
    non-empty after the decision — in particular for every admitted call,
    because admission appends the current timestamp to the aliased list
    before the emptiness test — and it is `int(now)` exactly when the
    pre-call window is empty and the call is denied (possible only for
    limits at most 0). -/
theorem reset_time_formula :
    ∀ (rl : RateLimiter) (key : String) (L : Int) (W now : ℚ), W ≤ 3600 →
      (rl.is_allowed key L W now).2.1.reset =
        if (rl.requests key).filter (fun t => decide (now - W < t)) = [] ∧
            (rl.is_allowed key L W now).1 = false
        then py_int now else py_int (now + W) := by
  intro rl key L W now hW
  obtain ⟨hfst, -, hreset⟩ := is_allowed_proj rl key L W now hW
  rw [hreset, hfst]
  by_cases ha : (((rl.requests key).filter (fun t => decide (now - W < t))).length : Int) < L
  · simp [ha]
  · simp [ha]

/-- Witness for `reset_time_formula`: fresh limiter, limit 1, window 60 s,
    call at time 5 — the call is admitted, so the reset time is
    `int(5 + 60) = 65`. -/
theorem reset_time_formula_witness :
    ((RateLimiter.init 0).is_allowed "k" 1 60 5).2.1.reset = 65 := by
  have h := reset_time_formula (RateLimiter.init 0) "k" 1 60 5 (by norm_num)
  rw [h]
  norm_num [RateLimiter.init, RateLimiter.is_allowed, RateLimiter.cleanup_interval,
    py_int, py_max]

/-! ## Published service (`app/models/published_service.py`) -/

/-- The `PublishedService` ORM model. JSON list columns that are written
    only through their setters are stored parsed (`Option (List String)`,
    `none` for a NULL or empty column). -/
structure PublishedService where
  id : String
  user_id : String
  service_name : String
  description : Option String := none
  status : String := "active"
  model_name : String
  confidence_threshold : ℚ := 1/2
  detection_classes : Option (List String) := none
  api_endpoint : String
  rate_limit : Int := 100
  max_file_size : Int := 10485760
  allowed_formats : Option (List String) := none
  total_calls : Int := 0
  successful_calls : Int := 0
  failed_calls : Int := 0
  last_called_at : Option ℚ := none
  is_delete : Bool := false
  created_at : ℚ := 0
  updated_at : ℚ := 0
  deleted_at : Option ℚ := none
deriving DecidableEq

/-- `PublishedService.get_detection_classes`: the parsed column, `[]` when
    the column is NULL or empty. -/
def PublishedService.get_detection_classes (s : PublishedService) : List String :=
  s.detection_classes.getD []

/-- `PublishedService.get_allowed_formats`: the parsed column, with the
    source's default format list when the column is NULL or empty. -/
def PublishedService.get_allowed_formats (s : PublishedService) : List String :=
  s.allowed_formats.getD ["jpg", "jpeg", "png", "mp4", "avi"]

/-- `PublishedService.disable`. -/
def PublishedService.disable (s : PublishedService) (now : ℚ) : PublishedService :=
  { s with status := "disabled", updated_at := now }

/-- `PublishedService.enable`. -/
def PublishedService.enable (s : PublishedService) (now : ℚ) : PublishedService :=
  { s with status := "active", updated_at := now }

/-- `PublishedService.soft_delete`. -/
def PublishedService.soft_delete (s : PublishedService) (now : ℚ) : PublishedService :=
  { s with
    is_delete := true
    status := "deleted"
    deleted_at := some now
    updated_at := now }

/-- `PublishedService.restore`. -/
def PublishedService.restore (s : PublishedService) (now : ℚ) : PublishedService :=
  { s with
    is_delete := false
    status := "active"
    deleted_at := none
    updated_at := now }

/-- `PublishedService.increment_call_count(success)`. -/
def PublishedService.increment_call_count (s : PublishedService) (success : Bool)
    (now : ℚ) : PublishedService :=
  { s with
    total_calls := s.total_calls + 1
    successful_calls := if success then s.successful_calls + 1 else s.successful_calls
    failed_calls := if success then s.failed_calls else s.failed_calls + 1
    last_called_at := some now
    updated_at := now }

/-- `PublishedService.success_rate` property. -/
def PublishedService.success_rate (s : PublishedService) : ℚ :=
  if s.total_calls = 0 then 0
  else ((s.successful_calls : ℚ) / (s.total_calls : ℚ)) * 100

/-- `PublishedService.is_active` property. -/
def PublishedService.is_active (s : PublishedService) : Bool :=
  s.status == "active" && !s.is_delete

/-- Fold a sequence of call outcomes through `increment_call_count`. -/
def PublishedService.apply_calls (s : PublishedService) (now : ℚ) :
    List Bool → PublishedService
  | [] => s
  | b :: bs => (s.increment_call_count b now).apply_calls now bs

/-- A concrete service used by witnesses and counterexamples. -/
def sampleService : PublishedService :=
  { id := "s1", user_id := "u1", service_name := "svc", model_name := "yolo",
    api_endpoint := "/api/services/s1/detect" }

/-- C4: `increment_call_count` preserves `successful + failed = total`,
    increments `total_calls` by one and exactly one of the success/failure
    counters, refreshes `last_called_at`, and the other state-transition
    operations on the model leave all three counters untouched. -/
theorem aggregate_counter_invariant :
    ∀ (s : PublishedService) (b : Bool) (now : ℚ),
      (s.successful_calls + s.failed_calls = s.total_calls →
        (s.increment_call_count b now).successful_calls
          + (s.increment_call_count b now).failed_calls
          = (s.increment_call_count b now).total_calls) ∧
      (s.increment_call_count b now).total_calls = s.total_calls + 1 ∧
      (s.increment_call_count b now).successful_calls
        = s.successful_calls + (if b then 1 else 0) ∧
      (s.increment_call_count b now).failed_calls
        = s.failed_calls + (if b then 0 else 1) ∧
      (s.increment_call_count b now).last_called_at = some now ∧
      ((s.disable now).total_calls = s.total_calls ∧
        (s.disable now).successful_calls = s.successful_calls ∧
        (s.disable now).failed_calls = s.failed_calls) ∧
      ((s.enable now).total_calls = s.total_calls ∧
        (s.enable now).successful_calls = s.successful_calls ∧
        (s.enable now).failed_calls = s.failed_calls) ∧
      ((s.soft_delete now).total_calls = s.total_calls ∧
        (s.soft_delete now).successful_calls = s.successful_calls ∧
        (s.soft_delete now).failed_calls = s.failed_calls) ∧
      ((s.restore now).total_calls = s.total_calls ∧
        (s.restore now).successful_calls = s.successful_calls ∧
        (s.restore now).failed_calls = s.failed_calls) := by
  intro s b now
  cases b <;>
    simp [PublishedService.increment_call_count, PublishedService.disable,
      PublishedService.enable, PublishedService.soft_delete,
      PublishedService.restore] <;>
    intro h <;> omega

/-- Witness for `aggregate_counter_invariant` at a fresh service. -/
theorem aggregate_counter_invariant_witness :
    (sampleService.increment_call_count true 7).successful_calls
      + (sampleService.increment_call_count true 7).failed_calls
      = (sampleService.increment_call_count true 7).total_calls := by
  exact (aggregate_counter_invariant sampleService true 7).1 (by norm_num [sampleService])

/-- Counters after folding a batch of call outcomes. -/
lemma apply_calls_counters (now : ℚ) :
    ∀ (bs : List Bool) (s : PublishedService),
      (s.apply_calls now bs).total_calls = s.total_calls + bs.length ∧
      (s.apply_calls now bs).successful_calls = s.successful_calls + bs.count true ∧
      (s.apply_calls now bs).failed_calls = s.failed_calls + bs.count false := by
  intro bs
  induction bs with
  | nil => intro s; simp [PublishedService.apply_calls]
  | cons b bs ih =>
    intro s
    obtain ⟨h1, h2, h3⟩ := ih (s.increment_call_count b now)
    have e1 : s.apply_calls now (b :: bs)
        = (s.increment_call_count b now).apply_calls now bs := rfl
    refine ⟨?_, ?_, ?_⟩ <;> rw [e1]
    · rw [h1]
      cases b <;> simp [PublishedService.increment_call_count] <;> ring
    · rw [h2]
      cases b <;> simp [PublishedService.increment_call_count, List.count_cons] <;> ring
    · rw [h3]
      cases b <;> simp [PublishedService.increment_call_count, List.count_cons] <;> ring

/-- C7 counterexample: a service with 1 success out of 2 calls has
    `success_rate = 50`, not `successful_calls / total_calls = 1/2` — the
    code returns a percentage. -/
theorem success_rate_percentage_counterexample :
    ({ sampleService with total_calls := 2, successful_calls := 1, failed_calls := 1 } :
        PublishedService).success_rate = 50 ∧
    (((1 : Int) : ℚ) / ((2 : Int) : ℚ)) = 1 / 2 ∧
    ({ sampleService with total_calls := 2, successful_calls := 1, failed_calls := 1 } :
        PublishedService).success_rate ≠ 1 / 2 := by
  norm_num [PublishedService.success_rate, sampleService]

/-- C7 (amended): `success_rate` is the percentage
    `(successful_calls / total_calls) * 100`, and `0` when
    `total_calls = 0`; in particular, after a batch of N calls with K
    failures recorded on a fresh service it equals `(N - K) / N * 100`. -/
theorem success_rate_formula :
    (∀ s : PublishedService, s.total_calls = 0 → s.success_rate = 0) ∧
    (∀ s : PublishedService, s.total_calls ≠ 0 →
      s.success_rate = ((s.successful_calls : ℚ) / (s.total_calls : ℚ)) * 100) ∧
    (∀ (s : PublishedService) (now : ℚ) (bs : List Bool),
      s.total_calls = 0 → s.successful_calls = 0 → s.failed_calls = 0 → bs ≠ [] →
      (s.apply_calls now bs).success_rate
        = ((bs.count true : ℚ) / (bs.length : ℚ)) * 100) := by
  refine ⟨?_, ?_, ?_⟩
  · intro s h; simp [PublishedService.success_rate, h]
  · intro s h; simp [PublishedService.success_rate, h]
  · intro s now bs htot hsucc hfail hne
    obtain ⟨h1, h2, h3⟩ := apply_calls_counters now bs s
    have hlen : bs.length ≠ 0 := by simpa using hne
    have htotal : (s.apply_calls now bs).total_calls = (bs.length : Int) := by
      rw [h1, htot]; ring
    have hsucc' : (s.apply_calls now bs).successful_calls = (bs.count true : Int) := by
      rw [h2, hsucc]; ring
    have hne' : (s.apply_calls now bs).total_calls ≠ 0 := by
      rw [htotal]
      exact_mod_cast hlen
    rw [PublishedService.success_rate, if_neg hne', htotal, hsucc']
    push_cast
    ring

/-- Witness for `success_rate_formula`: one success and one failure on a
    fresh service give a 50 percent success rate. -/
theorem success_rate_formula_witness :
    (sampleService.apply_calls 3 [true, false]).success_rate = 50 := by
  have h := success_rate_formula.2.2 sampleService 3 [true, false] rfl rfl rfl (by simp)
  rw [h]
  norm_num

/-! ## Service token (`app/models/service_token.py`) -/

/-- The `ServiceToken` ORM model. `usage_count` is a string column in the
    source and is kept a string here. -/
structure ServiceToken where
  id : String
  service_id : String
  token_name : String
  token_hash : String
  token_prefix : String := ""
  permissions : Option String := none
  rate_limit_override : Option String := none
  ip_whitelist : Option String := none
  is_active : Bool := true
  is_revoked : Bool := false
  usage_count : String := "0"
  last_used_at : Option ℚ := none
  last_used_ip : Option String := none
  expires_at : Option ℚ := none
  is_delete : Bool := false
  created_at : ℚ := 0
  updated_at : ℚ := 0
  deleted_at : Option ℚ := none
deriving DecidableEq

/-- `ServiceToken.verify_token`, with the SHA-256 digest of the external
    `hashlib` library abstracted as `hashFn`: reject revoked, deleted,
    inactive and expired tokens, then compare digests. -/
def ServiceToken.verify_token (tk : ServiceToken) (hashFn : String → String)
    (token : String) (now : ℚ) : Bool :=
  if tk.is_revoked || tk.is_delete || !tk.is_active then false
  else if (match tk.expires_at with
           | some e => decide (now > e)
           | none => false) then false
  else hashFn token == tk.token_hash

/-- `ServiceToken.update_usage(ip_address)`: bump the string usage counter
    (falling back to "1" when it does not parse), refresh `last_used_at`
    and, when the address is truthy, `last_used_ip`. -/
def ServiceToken.update_usage (tk : ServiceToken) (ip_address : Option String)
    (now : ℚ) : ServiceToken :=
  { tk with
    usage_count :=
      match py_to_int tk.usage_count with
      | some n => py_str_int (n + 1)
      | none => "1"
    last_used_at := some now
    last_used_ip :=
      match truthy_str ip_address with
      | some ip => some ip
      | none => tk.last_used_ip
    updated_at := now }

/-! ## Service call record (`app/models/service_call.py`) -/

/-- The `ServiceCall` ORM model (the fields the gateway touches). -/
structure ServiceCall where
  id : String := ""
  service_id : String
  token_id : Option String := none
  request_id : String
  client_ip : Option String := none
  user_agent : Option String := none
  referer : Option String := none
  http_method : String := "POST"
  request_path : String
  request_headers : Option (List (String × String)) := none
  file_name : Option String := none
  file_size : Option Int := none
  file_type : Option String := none
  status_code : Int
  processing_time : Option ℚ := none
  detection_count : Option Int := none
  model_used : Option String := none
  confidence_threshold : Option ℚ := none
  success : Bool := false
  error_code : Option String := none
  error_message : Option String := none
  callback_url : Option String := none
  callback_status : Option String := none
  callback_attempts : Int := 0
  is_delete : Bool := false
  created_at : ℚ := 0
  completed_at : Option ℚ := none
deriving DecidableEq

/-- `ServiceCall.complete_call`: finalize the success path. -/
def ServiceCall.complete_call (c : ServiceCall) (status_code : Int) (success : Bool)
    (detection_count : Option Int) (processing_time : Option ℚ) (now : ℚ) : ServiceCall :=
  let c1 := { c with status_code := status_code, success := success, completed_at := some now }
  let c2 := match detection_count with
    | some n => { c1 with detection_count := some n }
    | none => c1
  match processing_time with
  | some p => { c2 with processing_time := some p }
  | none => c2

/-- `ServiceCall.set_error`: finalize the error path. -/
def ServiceCall.set_error (c : ServiceCall) (error_code error_message : String)
    (status_code : Int) (now : ℚ) : ServiceCall :=
  { c with
    success := false
    status_code := status_code
    error_code := some error_code
    error_message := some error_message
    completed_at := some now }

/-! ## Authentication middleware (`ServiceAuthMiddleware` in
    `app/core/middleware.py`) -/

/-- The parts of an inbound HTTP request the middleware reads. -/
structure MwRequest where
  path : String
  method : String := "POST"
  headers : List (String × String) := []
  client_host : Option String := none
deriving DecidableEq

/-- Case-insensitive header lookup (Starlette header semantics). -/
def headers_get (hs : List (String × String)) (name : String) : Option String :=
  (hs.find? (fun kv => py_lower kv.1 == py_lower name)).map (fun kv => kv.2)

/-- Python `path.strip("/")`. -/
def strip_slashes (s : String) : String :=
  String.mk (((s.data.dropWhile (fun c => c == '/')).reverse.dropWhile
    (fun c => c == '/')).reverse)

/-- `self.service_paths` from `ServiceAuthMiddleware.__init__`. -/
def service_paths : List String := ["/api/services/", "/api/v1/services/"]

/-- `ServiceAuthMiddleware._is_service_call`. -/
def is_service_call (path : String) : Bool :=
  service_paths.any (fun p => str_starts path p)

/-- `ServiceAuthMiddleware._extract_service_id`: `/api/services/{id}/...`
    or `/api/v1/services/{id}/...`. -/
def extract_service_id (path : String) : Option String :=
  let parts := py_split (strip_slashes path) '/'
  if parts.length ≥ 3 && parts[1]? == some "services" then parts[2]?
  else if parts.length ≥ 4 && parts[1]? == some "v1" && parts[2]? == some "services" then
    parts[3]?
  else none

/-- `ServiceAuthMiddleware._get_client_ip`: forwarded-for header first (its
    first comma-separated entry, stripped), then real-IP header, then the
    transport peer address, else "unknown". -/
def get_client_ip (req : MwRequest) : String :=
  match truthy_str (headers_get req.headers "X-Forwarded-For") with
  | some f => py_strip ((py_split f ',').headD "")
  | none =>
    match truthy_str (headers_get req.headers "X-Real-IP") with
    | some ip => ip
    | none =>
      match req.client_host with
      | some h => h
      | none => "unknown"

/-- Outcome of `json.loads` on an IP whitelist column, abstracted: a decode
    error, a non-list JSON value, or a list retaining its string elements
    (the only elements a string client IP can compare equal to). -/
inductive JsonListOutcome
  | err
  | nonList
  | list (elems : List String)
deriving DecidableEq

/-- The persistent store the middleware queries and mutates. -/
structure GatewayDB where
  services : List PublishedService
  tokens : List ServiceToken
  calls : List ServiceCall
deriving DecidableEq

/-- The token query filter in `_authenticate_request`: same service,
    active, not revoked, not deleted. -/
def token_candidate (service_id : String) (tk : ServiceToken) : Bool :=
  tk.service_id == service_id && tk.is_active && !tk.is_revoked && !tk.is_delete

/-- The verification loop of `_authenticate_request` over the candidate
    query results (store order): the first token passing the filter and
    `verify_token` is updated via `update_usage` and committed; the updated
    token and the updated store are returned. -/
def auth_token_loop (hashFn : String → String) (secret client_ip : String) (now : ℚ)
    (service_id : String) : List ServiceToken → Option (ServiceToken × List ServiceToken)
  | [] => none
  | tk :: rest =>
    if token_candidate service_id tk && tk.verify_token hashFn secret now then
      let tk' := tk.update_usage (some client_ip) now
      some (tk', tk' :: rest)
    else
      match auth_token_loop hashFn secret client_ip now service_id rest with
      | some (t, rest') => some (t, tk :: rest')
      | none => none

/-- `ServiceAuthMiddleware._authenticate_request`: bearer extraction,
    service lookup (not soft-deleted), then the token loop; on a match the
    usage update is committed to the store before returning. -/
def authenticate_request (hashFn : String → String) (req : MwRequest)
    (service_id : String) (db : GatewayDB) (now : ℚ) :
    Option (PublishedService × ServiceToken × GatewayDB) :=
  match headers_get req.headers "Authorization" with
  | none => none
  | some auth =>
    if ¬ str_starts auth "Bearer " then none
    else
      let secret := py_drop auth 7
      match db.services.find? (fun s => s.id == service_id && !s.is_delete) with
      | none => none
      | some service =>
        match auth_token_loop hashFn secret (get_client_ip req) now service_id db.tokens with
        | some (tk, tokens') => some (service, tk, { db with tokens := tokens' })
        | none => none

/-- The effective per-key limit: the token override when truthy (parsed,
    falling back to the service limit when unparsable), else the service
    `rate_limit`. -/
def limit_value_of (tk : ServiceToken) (service : PublishedService) : Int :=
  match truthy_str tk.rate_limit_override with
  | some s =>
    match py_to_int s with
    | some v => v
    | none => service.rate_limit
  | none => service.rate_limit

/-- The rate-limiter key `service:{service_id}:token:{token.id}`. -/
def rate_limit_key (service_id token_id : String) : String :=
  "service:" ++ service_id ++ ":token:" ++ token_id

/-- Header snapshot with credentials stripped (`_log_service_call`). -/
def safe_headers (hs : List (String × String)) : List (String × String) :=
  hs.filter (fun kv => !(["authorization", "cookie", "x-api-key"].contains (py_lower kv.1)))

/-- `ServiceAuthMiddleware._log_service_call`: append one `ServiceCall`
    row (its `completed_at` keeps the column default, unset) and bump the
    service aggregate counters, in one commit. -/
def log_service_call (req : MwRequest) (service : PublishedService) (token : ServiceToken)
    (status_code : Int) (proc_time : ℚ) (req_id : String) (log_time : ℚ)
    (db : GatewayDB) : GatewayDB :=
  let record : ServiceCall :=
    { service_id := service.id
      token_id := some token.id
      request_id := req_id
      client_ip := some (get_client_ip req)
      user_agent := some ((headers_get req.headers "User-Agent").getD "")
      referer := some ((headers_get req.headers "Referer").getD "")
      http_method := req.method
      request_path := req.path
      request_headers := some (safe_headers req.headers)
      status_code := status_code
      processing_time := some proc_time
      success := decide (200 ≤ status_code ∧ status_code < 300)
      model_used := some service.model_name
      confidence_threshold := some service.confidence_threshold
      created_at := log_time }
  let service' := service.increment_call_count
    (decide (200 ≤ status_code ∧ status_code < 300)) log_time
  { db with
    calls := db.calls ++ [record]
    services := db.services.map (fun s => if s.id == service.id then service' else s) }

/-- The request-state attributes the middleware sets before `call_next`;
    `call_record` mirrors the `request.state.call_record` attribute the
    detect endpoint looks for, which no code ever sets. -/
structure RequestState where
  service : PublishedService
  token : ServiceToken
  rate_info : RateInfo
  call_record : Option ServiceCall

/-- The response produced by `ServiceAuthMiddleware.dispatch` for a request. -/
inductive GatewayResult
  | passthrough
  | unauthorized
  | serviceDisabled
  | rateLimited (info : RateInfo)
  | ipNotAllowed
  | proceeded (info : RateInfo) (status : Int)
deriving DecidableEq

/-- HTTP status of a middleware response (`none` for a passthrough, where
    the middleware builds no response of its own). -/
def GatewayResult.http_status : GatewayResult → Option Int
  | .passthrough => none
  | .unauthorized => some 401
  | .serviceDisabled => some 403
  | .rateLimited _ => some 429
  | .ipNotAllowed => some 403
  | .proceeded _ s => some s

/-- The error `code` field of a middleware rejection body. -/
def GatewayResult.error_code : GatewayResult → Option String
  | .unauthorized => some "INVALID_TOKEN"
  | .serviceDisabled => some "SERVICE_DISABLED"
  | .rateLimited _ => some "RATE_LIMIT_EXCEEDED"
  | .ipNotAllowed => some "IP_NOT_ALLOWED"
  | _ => none

/-- `ServiceAuthMiddleware.dispatch`: path gating, authentication (which
    commits the usage update), service-activity check, rate check, IP
    allow-list check, inner handler (`call_next`, abstracted as `handler`
    over the request state the middleware populated), then the audit log.
    `proc_time` is the measured handler duration; `req_id` the UUID drawn
    in `_log_service_call`. -/
def dispatch (hashFn : String → String) (jsonLoads : String → JsonListOutcome)
    (handler : RequestState → Int) (req : MwRequest) (db : GatewayDB)
    (rl : RateLimiter) (now proc_time : ℚ) (req_id : String) :
    GatewayResult × GatewayDB × RateLimiter :=
  if ¬ is_service_call req.path then (.passthrough, db, rl)
  else
    match extract_service_id req.path with
    | none => (.passthrough, db, rl)
    | some service_id =>
      if ¬ str_ends req.path "/detect" then (.passthrough, db, rl)
      else
        match authenticate_request hashFn req service_id db now with
        | none => (.unauthorized, db, rl)
        | some (service, token, db1) =>
          if ¬ service.is_active then (.serviceDisabled, db1, rl)
          else
            let limit_val := limit_value_of token service
            let res := rl.is_allowed (rate_limit_key service_id token.id) limit_val 60 now
            if ¬ res.1 then (.rateLimited res.2.1, db1, res.2.2)
            else
              let client_ip := get_client_ip req
              let ip_rejected :=
                match truthy_str token.ip_whitelist with
                | some w =>
                  match jsonLoads w with
                  | .list xs => !(xs.contains client_ip)
                  | _ => false
                | none => false
              if ip_rejected then (.ipNotAllowed, db1, res.2.2)
              else
                let st : RequestState :=
                  { service := service, token := token, rate_info := res.2.1,
                    call_record := none }
                let status := handler st
                let db2 := log_service_call req service token status proc_time req_id
                  (now + proc_time) db1
                (.proceeded res.2.1 status, db2, res.2.2)

/-! ### Authentication lemmas -/

/-- `update_usage` only touches the usage statistics: validity flags and
    configuration are unchanged, `last_used_at` is refreshed and the string
    counter is bumped (with fallback "1"). -/
lemma update_usage_fields (tk : ServiceToken) (ip : Option String) (now : ℚ) :
    (tk.update_usage ip now).is_revoked = tk.is_revoked ∧
    (tk.update_usage ip now).is_active = tk.is_active ∧
    (tk.update_usage ip now).is_delete = tk.is_delete ∧
    (tk.update_usage ip now).ip_whitelist = tk.ip_whitelist ∧
    (tk.update_usage ip now).rate_limit_override = tk.rate_limit_override ∧
    (tk.update_usage ip now).id = tk.id ∧
    (tk.update_usage ip now).expires_at = tk.expires_at ∧
    (tk.update_usage ip now).last_used_at = some now ∧
    (tk.update_usage ip now).usage_count =
      (match py_to_int tk.usage_count with
       | some n => py_str_int (n + 1)
       | none => "1") := by
  simp [ServiceToken.update_usage]

/-- A successful `verify_token` implies the token was active, unrevoked,
    undeleted, unexpired, and that the digests matched. -/
lemma verify_token_true_elim (tk : ServiceToken) (hashFn : String → String)
    (secret : String) (now : ℚ)
    (h : tk.verify_token hashFn secret now = true) :
    tk.is_revoked = false ∧ tk.is_delete = false ∧ tk.is_active = true ∧
    (∀ e, tk.expires_at = some e → ¬ now > e) ∧
    hashFn secret = tk.token_hash := by
  unfold ServiceToken.verify_token at h
  by_cases h1 : (tk.is_revoked || tk.is_delete || !tk.is_active) = true
  · rw [if_pos h1] at h; cases h
  · rw [if_neg h1] at h
    simp only [Bool.or_eq_true, Bool.not_eq_true', not_or] at h1
    by_cases h2 : (match tk.expires_at with
        | some e => decide (now > e)
        | none => false) = true
    · rw [if_pos h2] at h; cases h
    · rw [if_neg h2] at h
      refine ⟨?_, ?_, ?_, ?_, ?_⟩
      · cases hr : tk.is_revoked with
        | false => rfl
        | true => exact absurd hr h1.1.1
      · cases hd : tk.is_delete with
        | false => rfl
        | true => exact absurd hd h1.1.2
      · cases ha : tk.is_active with
        | true => rfl
        | false => exact absurd ha h1.2
      · intro e he hgt
        rw [he] at h2
        exact h2 (by simpa using hgt)
      · exact eq_of_beq h

/-- An expired token never verifies, whatever the flags and the digest. -/
lemma verify_token_expired (tk : ServiceToken) (hashFn : String → String)
    (secret : String) (now e : ℚ)
    (he : tk.expires_at = some e) (hlt : e < now) :
    tk.verify_token hashFn secret now = false := by
  unfold ServiceToken.verify_token
  by_cases h1 : (tk.is_revoked || tk.is_delete || !tk.is_active) = true
  · rw [if_pos h1]
  · rw [if_neg h1, if_pos]
    rw [he]
    simpa using hlt

/-- The token loop returns `none` when no candidate verifies. -/
lemma auth_token_loop_none (hashFn : String → String) (secret ip : String) (now : ℚ)
    (sid : String) :
    ∀ tks : List ServiceToken,
      (∀ tk ∈ tks, ¬(token_candidate sid tk = true ∧
          tk.verify_token hashFn secret now = true)) →
      auth_token_loop hashFn secret ip now sid tks = none := by
  intro tks
  induction tks with
  | nil => intro _; rfl
  | cons tk rest ih =>
    intro h
    have hcond : ¬((token_candidate sid tk && tk.verify_token hashFn secret now) = true) := by
      simp only [Bool.and_eq_true]
      exact h tk (by simp)
    simp only [auth_token_loop, if_neg hcond]
    rw [ih (fun t ht => h t (by simp [ht]))]

/-- When the token loop succeeds, the returned token is the `update_usage`
    image of a stored token that passed the candidate filter and
    `verify_token`. -/
lemma auth_token_loop_some (hashFn : String → String) (secret ip : String) (now : ℚ)
    (sid : String) :
    ∀ (tks : List ServiceToken) (tk : ServiceToken) (tks' : List ServiceToken),
      auth_token_loop hashFn secret ip now sid tks = some (tk, tks') →
      ∃ tk₀ ∈ tks, token_candidate sid tk₀ = true ∧
        tk₀.verify_token hashFn secret now = true ∧
        tk = tk₀.update_usage (some ip) now := by
  intro tks
  induction tks with
  | nil => intro tk tks' h; cases h
  | cons t rest ih =>
    intro tk tks' h
    by_cases hc : (token_candidate sid t && t.verify_token hashFn secret now) = true
    · simp only [auth_token_loop, if_pos hc, Option.some.injEq, Prod.mk.injEq] at h
      obtain ⟨h1, -⟩ := h
      have hc' := hc
      rw [Bool.and_eq_true] at hc'
      exact ⟨t, by simp, hc'.1, hc'.2, h1.symm⟩
    · simp only [auth_token_loop, if_neg hc] at h
      cases hrec : auth_token_loop hashFn secret ip now sid rest with
      | none => rw [hrec] at h; cases h
      | some pair =>
        obtain ⟨tkr, restr⟩ := pair
        rw [hrec] at h
        simp only [Option.some.injEq, Prod.mk.injEq] at h
        obtain ⟨h1, -⟩ := h
        obtain ⟨tk₀, hmem, hc₀, hv₀, heq⟩ := ih tkr restr hrec
        exact ⟨tk₀, by simp [hmem], hc₀, hv₀, by rw [← h1, heq]⟩

/-- `authenticate_request` fails when no stored token both passes the
    candidate filter and verifies against the presented secret. -/
lemma authenticate_request_eq_none (hashFn : String → String) (req : MwRequest)
    (sid : String) (db : GatewayDB) (now : ℚ) (auth : String)
    (hh : headers_get req.headers "Authorization" = some auth)
    (h : ∀ tk ∈ db.tokens, ¬(token_candidate sid tk = true ∧
        tk.verify_token hashFn (py_drop auth 7) now = true)) :
    authenticate_request hashFn req sid db now = none := by
  unfold authenticate_request
  rw [hh]
  dsimp only
  by_cases hb : str_starts auth "Bearer " = true
  · rw [if_neg (by simp [hb])]
    cases hfind : db.services.find? (fun s => s.id == sid && !s.is_delete) with
    | none => rfl
    | some sv =>
      rw [auth_token_loop_none hashFn (py_drop auth 7) (get_client_ip req) now sid
        db.tokens h]
  · rw [if_pos (by simpa using hb)]

/-- Unpacking a successful `authenticate_request`: the bearer header was
    present, the service was found not soft-deleted, and the returned token
    is the committed `update_usage` image of a stored token that passed the
    filter and verified. -/
lemma authenticate_request_some_elim (hashFn : String → String) (req : MwRequest)
    (sid : String) (db : GatewayDB) (now : ℚ)
    (service : PublishedService) (tk : ServiceToken) (db1 : GatewayDB)
    (h : authenticate_request hashFn req sid db now = some (service, tk, db1)) :
    ∃ auth, headers_get req.headers "Authorization" = some auth ∧
      str_starts auth "Bearer " = true ∧
      db.services.find? (fun s => s.id == sid && !s.is_delete) = some service ∧
      db1.services = db.services ∧ db1.calls = db.calls ∧
      ∃ tk₀ ∈ db.tokens, token_candidate sid tk₀ = true ∧
        tk₀.verify_token hashFn (py_drop auth 7) now = true ∧
        tk = tk₀.update_usage (some (get_client_ip req)) now := by
  unfold authenticate_request at h
  cases hh : headers_get req.headers "Authorization" with
  | none => rw [hh] at h; cases h
  | some auth =>
    rw [hh] at h
    dsimp only at h
    by_cases hb : str_starts auth "Bearer " = true
    · rw [if_neg (by simp [hb])] at h
      cases hfind : db.services.find? (fun s => s.id == sid && !s.is_delete) with
      | none => rw [hfind] at h; cases h
      | some sv =>
        rw [hfind] at h
        cases hloop : auth_token_loop hashFn (py_drop auth 7) (get_client_ip req) now sid
            db.tokens with
        | none => rw [hloop] at h; cases h
        | some pair =>
          obtain ⟨tkl, tks'⟩ := pair
          rw [hloop] at h
          simp only [Option.some.injEq, Prod.mk.injEq] at h
          obtain ⟨hsv, htk, hdb⟩ := h
          obtain ⟨tk₀, hmem, hcand, hver, heq⟩ :=
            auth_token_loop_some hashFn (py_drop auth 7) (get_client_ip req) now sid
              db.tokens tkl tks' hloop
          refine ⟨auth, rfl, hb, by rw [hsv], ?_, ?_, tk₀, hmem, hcand, hver, ?_⟩
          · rw [← hdb]
          · rw [← hdb]
          · rw [← htk, heq]
    · rw [if_pos (by simpa using hb)] at h
      cases h

/-- C5: token resolution never returns a revoked token — the query filter
    excludes revoked tokens and `verify_token` rejects them besides — and
    when every stored token of the service whose digest matches the
    presented secret is revoked, the gateway answers 401 `INVALID_TOKEN`. -/
theorem revoked_token_never_resolves :
    (∀ (hashFn : String → String) (req : MwRequest) (sid : String) (db : GatewayDB)
       (now : ℚ) (service : PublishedService) (tk : ServiceToken) (db1 : GatewayDB),
       authenticate_request hashFn req sid db now = some (service, tk, db1) →
       tk.is_revoked = false) ∧
    (∀ (hashFn : String → String) (jsonLoads : String → JsonListOutcome)
       (handler : RequestState → Int) (req : MwRequest) (db : GatewayDB)
       (rl : RateLimiter) (now proc_time : ℚ) (req_id : String)
       (sid auth : String),
       is_service_call req.path = true →
       extract_service_id req.path = some sid →
       str_ends req.path "/detect" = true →
       headers_get req.headers "Authorization" = some auth →
       (∀ tk ∈ db.tokens, tk.service_id = sid →
         tk.token_hash = hashFn (py_drop auth 7) → tk.is_revoked = true) →
       (dispatch hashFn jsonLoads handler req db rl now proc_time req_id).1
           = .unauthorized ∧
       (dispatch hashFn jsonLoads handler req db rl now proc_time req_id).1.http_status
           = some 401 ∧
       (dispatch hashFn jsonLoads handler req db rl now proc_time req_id).1.error_code
           = some "INVALID_TOKEN") := by
  constructor
  · intro hashFn req sid db now service tk db1 h
    obtain ⟨auth, -, -, -, -, -, tk₀, -, hcand, -, heq⟩ :=
      authenticate_request_some_elim hashFn req sid db now service tk db1 h
    simp only [token_candidate, Bool.and_eq_true, Bool.not_eq_true'] at hcand
    rw [heq]
    simpa [ServiceToken.update_usage] using hcand.1.2
  · intro hashFn jsonLoads handler req db rl now proc_time req_id sid auth
      h1 h2 h3 hh h7
    have hauth : authenticate_request hashFn req sid db now = none := by
      refine authenticate_request_eq_none hashFn req sid db now auth hh ?_
      rintro tk hmem ⟨hcand, hver⟩
      obtain ⟨hrev, -, -, -, hhash⟩ := verify_token_true_elim tk hashFn _ now hver
      simp only [token_candidate, Bool.and_eq_true, Bool.not_eq_true'] at hcand
      have hsid : tk.service_id = sid := eq_of_beq hcand.1.1.1
      have := h7 tk hmem hsid hhash.symm
      rw [this] at hrev
      cases hrev
    unfold dispatch
    rw [if_neg (by simp [h1]), h2]
    dsimp only
    rw [if_neg (by simp [h3]), hauth]
    exact ⟨rfl, rfl, rfl⟩

/-- C6: an expired token is rejected with 401 `INVALID_TOKEN` even when the
    presented secret is correct and the token is active, unrevoked and
    undeleted: `verify_token` returns false as soon as `expires_at` lies in
    the past, and when every digest-matching stored token of the service is
    expired, the gateway answers 401 `INVALID_TOKEN`. -/
theorem expired_token_rejected_401 :
    (∀ (tk : ServiceToken) (hashFn : String → String) (secret : String) (now e : ℚ),
       tk.expires_at = some e → e < now →
       tk.verify_token hashFn secret now = false) ∧
    (∀ (hashFn : String → String) (jsonLoads : String → JsonListOutcome)
       (handler : RequestState → Int) (req : MwRequest) (db : GatewayDB)
       (rl : RateLimiter) (now proc_time : ℚ) (req_id : String)
       (sid auth : String),
       is_service_call req.path = true →
       extract_service_id req.path = some sid →
       str_ends req.path "/detect" = true →
       headers_get req.headers "Authorization" = some auth →
       (∀ tk ∈ db.tokens, tk.service_id = sid →
         tk.token_hash = hashFn (py_drop auth 7) →
         ∃ e, tk.expires_at = some e ∧ e < now) →
       (dispatch hashFn jsonLoads handler req db rl now proc_time req_id).1
           = .unauthorized ∧
       (dispatch hashFn jsonLoads handler req db rl now proc_time req_id).1.http_status
           = some 401 ∧
       (dispatch hashFn jsonLoads handler req db rl now proc_time req_id).1.error_code
           = some "INVALID_TOKEN") := by
  constructor
  · intro tk hashFn secret now e he hlt
    exact verify_token_expired tk hashFn secret now e he hlt
  · intro hashFn jsonLoads handler req db rl now proc_time req_id sid auth
      h1 h2 h3 hh h7
    have hauth : authenticate_request hashFn req sid db now = none := by
      refine authenticate_request_eq_none hashFn req sid db now auth hh ?_
      rintro tk hmem ⟨hcand, hver⟩
      obtain ⟨-, -, -, hunexp, hhash⟩ := verify_token_true_elim tk hashFn _ now hver
      simp only [token_candidate, Bool.and_eq_true, Bool.not_eq_true'] at hcand
      have hsid : tk.service_id = sid := eq_of_beq hcand.1.1.1
      obtain ⟨e, he, hlt⟩ := h7 tk hmem hsid hhash.symm
      exact hunexp e he hlt
    unfold dispatch
    rw [if_neg (by simp [h1]), h2]
    dsimp only
    rw [if_neg (by simp [h3]), hauth]
    exact ⟨rfl, rfl, rfl⟩

/-! ### Concrete fixtures for witnesses and counterexamples -/

/-- A stand-in for the SHA-256 digest in concrete scenarios. -/
def idHash : String → String := fun s => s

/-- A stand-in for `json.loads` in scenarios without an IP whitelist. -/
def noJson : String → JsonListOutcome := fun _ => .err

/-- A concrete valid token for `sampleService` (digest of "sek1" under
    `idHash`). -/
def sampleToken : ServiceToken :=
  { id := "t1", service_id := "s1", token_name := "tok", token_hash := "sek1" }

/-- A concrete detect request presenting the bearer secret "sek1". -/
def sampleRequest : MwRequest :=
  { path := "/api/services/s1/detect"
    headers := [("Authorization", "Bearer sek1")]
    client_host := some "9.9.9.9" }

/-- Witness for `revoked_token_never_resolves`: the store holds only a
    revoked token whose digest matches the presented secret; the request is
    rejected 401 `INVALID_TOKEN`. -/
theorem revoked_token_never_resolves_witness :
    (dispatch idHash noJson (fun _ => 200) sampleRequest
        { services := [sampleService],
          tokens := [{ sampleToken with is_revoked := true }], calls := [] }
        (RateLimiter.init 0) 5 1 "r1").1 = .unauthorized := by
  have h := revoked_token_never_resolves.2 idHash noJson (fun _ => 200) sampleRequest
    { services := [sampleService],
      tokens := [{ sampleToken with is_revoked := true }], calls := [] }
    (RateLimiter.init 0) 5 1 "r1" "s1" "Bearer sek1"
    (by decide) (by decide) (by decide)
    (by decide)
    (by decide)
  exact h.1

/-- Witness for `expired_token_rejected_401`: the store holds one token,
    active, unrevoked, undeleted, with the matching digest but expired at
    time 1 < 5; the request is rejected 401 `INVALID_TOKEN`. -/
theorem expired_token_rejected_401_witness :
    (dispatch idHash noJson (fun _ => 200) sampleRequest
        { services := [sampleService],
          tokens := [{ sampleToken with expires_at := some 1 }], calls := [] }
        (RateLimiter.init 0) 5 1 "r1").1 = .unauthorized := by
  have h := expired_token_rejected_401.2 idHash noJson (fun _ => 200) sampleRequest
    { services := [sampleService],
      tokens := [{ sampleToken with expires_at := some 1 }], calls := [] }
    (RateLimiter.init 0) 5 1 "r1" "s1" "Bearer sek1"
    (by decide) (by decide) (by decide)
    (by decide)
    (by intro tk hmem h1 h2
        refine ⟨1, ?_, by norm_num⟩
        simp only [List.mem_singleton] at hmem
        rw [hmem])
  exact h.1

/-- A token like `sampleToken` but with a rate override of one call per
    window. -/
def limitedToken : ServiceToken :=
  { id := "t1", service_id := "s1", token_name := "tok", token_hash := "sek1",
    rate_limit_override := some "1" }

/-- Store with the one-call-per-minute token. -/
def limitedDB : GatewayDB :=
  { services := [sampleService], tokens := [limitedToken], calls := [] }

/-- A limiter that already holds one in-window timestamp for the key of
    `sampleService` and `limitedToken`. -/
def seededRL : RateLimiter :=
  { requests := Function.update (fun _ => []) "service:s1:token:t1" [5]
    last_cleanup := 5 }

/-- C2 counterexample: a request whose secret authenticates but whose rate
    check is denied still increments the token usage counter — the usage
    update is committed during authentication, before the rate-limiter
    admission decision. With limit 1 and one in-window timestamp, the
    dispatch returns 429, yet the stored usage counter went from "0" to
    "1". -/
theorem usage_count_incremented_on_denied_request :
    (dispatch idHash noJson (fun _ => 200) sampleRequest limitedDB seededRL 5 1 "r1").1
        = .rateLimited { limit := 1, remaining := 0, reset := 65, current := 1 } ∧
    limitedToken.usage_count = "0" ∧
    ((dispatch idHash noJson (fun _ => 200) sampleRequest limitedDB seededRL
        5 1 "r1").2.1.tokens.map ServiceToken.usage_count) = ["1"] := by
  have hauth : authenticate_request idHash sampleRequest "s1" limitedDB 5
      = some (sampleService, limitedToken.update_usage (some "9.9.9.9") 5,
          { services := [sampleService],
            tokens := [limitedToken.update_usage (some "9.9.9.9") 5], calls := [] }) := by
    norm_num +decide [authenticate_request, headers_get, py_lower, sampleRequest,
      truthy_str, limitedDB, sampleService, str_starts, py_drop, auth_token_loop,
      token_candidate, ServiceToken.verify_token, idHash, limitedToken, get_client_ip,
      ServiceToken.update_usage, py_to_int, py_strip, py_str_int, py_str_nat,
      nat_digits_aux]
  have hlim : limit_value_of (limitedToken.update_usage (some "9.9.9.9") 5)
      sampleService = 1 := by
    norm_num +decide [limit_value_of, truthy_str, py_to_int, py_strip,
      ServiceToken.update_usage, limitedToken, sampleService]
  have hrl1 : (seededRL.is_allowed
      (rate_limit_key "s1" ((limitedToken.update_usage (some "9.9.9.9") 5).id))
      1 60 5).1 = false := by
    norm_num +decide [RateLimiter.is_allowed, RateLimiter.cleanup_interval,
      rate_limit_key, seededRL, limitedToken, ServiceToken.update_usage]
  have hrl2 : (seededRL.is_allowed
      (rate_limit_key "s1" ((limitedToken.update_usage (some "9.9.9.9") 5).id))
      1 60 5).2.1 = { limit := 1, remaining := 0, reset := 65, current := 1 } := by
    norm_num +decide [RateLimiter.is_allowed, RateLimiter.cleanup_interval,
      rate_limit_key, seededRL, limitedToken, ServiceToken.update_usage, py_int, py_max]
  refine ⟨?_, by decide, ?_⟩
  · unfold dispatch
    rw [if_neg (by decide),
      show extract_service_id sampleRequest.path = some "s1" from by decide]
    dsimp only
    rw [if_neg (by decide), hauth]
    dsimp only
    rw [if_neg (by decide), hlim, if_pos (by simp [hrl1])]
    exact congrArg GatewayResult.rateLimited hrl2
  · unfold dispatch
    rw [if_neg (by decide),
      show extract_service_id sampleRequest.path = some "s1" from by decide]
    dsimp only
    rw [if_neg (by decide), hauth]
    dsimp only
    rw [if_neg (by decide), hlim, if_pos (by simp [hrl1])]
    decide

/-- C2 (amended): the usage-counter mutation happens at authentication
    time, before the rate-limiter admission decision; hence a rate-denied
    request whose secret authenticates still increments the token usage
    counter by one (committed in the store the dispatch returns), though no
    audit row is written for it. -/
theorem usage_update_precedes_rate_check :
    ∀ (hashFn : String → String) (jsonLoads : String → JsonListOutcome)
      (handler : RequestState → Int) (req : MwRequest) (db : GatewayDB)
      (rl : RateLimiter) (now proc_time : ℚ) (req_id : String)
      (sid : String) (service : PublishedService) (tk : ServiceToken) (db1 : GatewayDB),
      is_service_call req.path = true →
      extract_service_id req.path = some sid →
      str_ends req.path "/detect" = true →
      authenticate_request hashFn req sid db now = some (service, tk, db1) →
      service.is_active = true →
      (rl.is_allowed (rate_limit_key sid tk.id) (limit_value_of tk service) 60 now).1
          = false →
      (dispatch hashFn jsonLoads handler req db rl now proc_time req_id).1
          = .rateLimited (rl.is_allowed (rate_limit_key sid tk.id)
              (limit_value_of tk service) 60 now).2.1 ∧
      (dispatch hashFn jsonLoads handler req db rl now proc_time req_id).2.1 = db1 ∧
      db1.calls = db.calls ∧
      tk.last_used_at = some now ∧
      ∃ tk₀ ∈ db.tokens, tk = tk₀.update_usage (some (get_client_ip req)) now ∧
        tk.usage_count = (match py_to_int tk₀.usage_count with
                          | some n => py_str_int (n + 1)
                          | none => "1") := by
  intro hashFn jsonLoads handler req db rl now proc_time req_id sid service tk db1
    h1 h2 h3 hauth hact hrate
  obtain ⟨auth, -, -, -, -, hcalls, tk₀, hmem, -, -, heq⟩ :=
    authenticate_request_some_elim hashFn req sid db now service tk db1 hauth
  have hdisp : dispatch hashFn jsonLoads handler req db rl now proc_time req_id
      = (.rateLimited (rl.is_allowed (rate_limit_key sid tk.id)
          (limit_value_of tk service) 60 now).2.1, db1,
         (rl.is_allowed (rate_limit_key sid tk.id)
          (limit_value_of tk service) 60 now).2.2) := by
    unfold dispatch
    rw [if_neg (by simp [h1]), h2]
    dsimp only
    rw [if_neg (by simp [h3]), hauth]
    dsimp only
    rw [if_neg (by simp [hact]), if_pos (by simp [hrate])]
  refine ⟨by rw [hdisp], by rw [hdisp], hcalls, ?_, tk₀, hmem, heq, ?_⟩
  · rw [heq]
    exact (update_usage_fields tk₀ (some (get_client_ip req)) now).2.2.2.2.2.2.2.1
  · rw [heq]
    exact (update_usage_fields tk₀ (some (get_client_ip req)) now).2.2.2.2.2.2.2.2

/-- Witness for `usage_update_precedes_rate_check` at the concrete denial
    scenario: the store the 429 dispatch returns holds the usage-bumped
    token. -/
theorem usage_update_precedes_rate_check_witness :
    (dispatch idHash noJson (fun _ => 200) sampleRequest limitedDB seededRL
        5 1 "r1").2.1.tokens = [limitedToken.update_usage (some "9.9.9.9") 5] := by
  have h := usage_update_precedes_rate_check idHash noJson (fun _ => 200) sampleRequest
    limitedDB seededRL 5 1 "r1" "s1" sampleService
    (limitedToken.update_usage (some "9.9.9.9") 5)
    { services := [sampleService],
      tokens := [limitedToken.update_usage (some "9.9.9.9") 5], calls := [] }
    (by decide) (by decide) (by decide)
    (by norm_num +decide [authenticate_request, headers_get, py_lower, sampleRequest,
      truthy_str, limitedDB, sampleService, str_starts, py_drop, auth_token_loop,
      token_candidate, ServiceToken.verify_token, idHash, limitedToken, get_client_ip,
      ServiceToken.update_usage, py_to_int, py_strip, py_str_int, py_str_nat,
      nat_digits_aux])
    (by decide)
    (by norm_num +decide [RateLimiter.is_allowed, RateLimiter.cleanup_interval, seededRL,
      limit_value_of, limitedToken, ServiceToken.update_usage, truthy_str, py_to_int,
      py_strip, py_str_int, py_str_nat, nat_digits_aux, rate_limit_key, sampleService])
  rw [h.2.1]

/-- C10: a non-empty `ip_whitelist` column that does not parse as a JSON
    list (decode error or a non-list value) makes the gateway silently skip
    the allow-list check: the request proceeds to the handler whatever the
    client IP. -/
theorem malformed_ip_whitelist_skipped :
    ∀ (hashFn : String → String) (jsonLoads : String → JsonListOutcome)
      (handler : RequestState → Int) (req : MwRequest) (db : GatewayDB)
      (rl : RateLimiter) (now proc_time : ℚ) (req_id : String)
      (sid : String) (service : PublishedService) (tk : ServiceToken) (db1 : GatewayDB)
      (w : String),
      is_service_call req.path = true →
      extract_service_id req.path = some sid →
      str_ends req.path "/detect" = true →
      authenticate_request hashFn req sid db now = some (service, tk, db1) →
      service.is_active = true →
      (rl.is_allowed (rate_limit_key sid tk.id) (limit_value_of tk service) 60 now).1
          = true →
      tk.ip_whitelist = some w → w ≠ "" →
      (jsonLoads w = .err ∨ jsonLoads w = .nonList) →
      (dispatch hashFn jsonLoads handler req db rl now proc_time req_id).1
          = .proceeded
              (rl.is_allowed (rate_limit_key sid tk.id)
                (limit_value_of tk service) 60 now).2.1
              (handler { service := service, token := tk,
                         rate_info := (rl.is_allowed (rate_limit_key sid tk.id)
                           (limit_value_of tk service) 60 now).2.1,
                         call_record := none }) := by
  intro hashFn jsonLoads handler req db rl now proc_time req_id sid service tk db1 w
    h1 h2 h3 hauth hact hrate hwl hne hmal
  unfold dispatch
  rw [if_neg (by simp [h1]), h2]
  dsimp only
  rw [if_neg (by simp [h3]), hauth]
  dsimp only
  rw [if_neg (by simp [hact]), if_neg (by simp [hrate])]
  have hskip : (match truthy_str tk.ip_whitelist with
      | some w =>
        match jsonLoads w with
        | .list xs => !(xs.contains (get_client_ip req))
        | _ => false
      | none => false) = false := by
    rw [hwl]
    simp only [truthy_str, if_neg hne]
    rcases hmal with hm | hm <;> rw [hm]
  rw [hskip]
  rw [if_neg (by simp)]

/-- Witness for `malformed_ip_whitelist_skipped`: whitelist column "oops"
    (a parse error under the concrete loader), fresh limiter — the request
    reaches the handler. -/
theorem malformed_ip_whitelist_skipped_witness :
    (dispatch idHash noJson (fun _ => 200) sampleRequest
        { services := [sampleService],
          tokens := [{ sampleToken with ip_whitelist := some "oops" }], calls := [] }
        (RateLimiter.init 0) 5 1 "r1").1
      = .proceeded ((RateLimiter.init 0).is_allowed
          (rate_limit_key "s1" (({ sampleToken with ip_whitelist := some "oops" } :
            ServiceToken).update_usage (some "9.9.9.9") 5).id)
          (limit_value_of (({ sampleToken with ip_whitelist := some "oops" } :
            ServiceToken).update_usage (some "9.9.9.9") 5) sampleService) 60 5).2.1
          200 := by
  have h := malformed_ip_whitelist_skipped idHash noJson (fun _ => 200) sampleRequest
    { services := [sampleService],
      tokens := [{ sampleToken with ip_whitelist := some "oops" }], calls := [] }
    (RateLimiter.init 0) 5 1 "r1" "s1" sampleService
    (({ sampleToken with ip_whitelist := some "oops" } : ServiceToken).update_usage
      (some "9.9.9.9") 5)
    { services := [sampleService],
      tokens := [({ sampleToken with ip_whitelist := some "oops" } : ServiceToken).update_usage
        (some "9.9.9.9") 5], calls := [] }
    "oops"
    (by decide) (by decide) (by decide)
    (by norm_num +decide [authenticate_request, headers_get, py_lower, sampleRequest,
      truthy_str, sampleService, str_starts, py_drop, auth_token_loop,
      token_candidate, ServiceToken.verify_token, idHash, sampleToken, get_client_ip,
      ServiceToken.update_usage, py_to_int, py_strip, py_str_int, py_str_nat,
      nat_digits_aux])
    (by decide)
    (by norm_num +decide [RateLimiter.is_allowed, RateLimiter.init,
      RateLimiter.cleanup_interval, limit_value_of, sampleToken,
      ServiceToken.update_usage, truthy_str, py_to_int, py_strip, py_str_int,
      py_str_nat, nat_digits_aux, rate_limit_key, sampleService])
    (by decide) (by decide)
    (Or.inl rfl)
  exact h

/-! ## Detect endpoint (`service_detect` in `app/api/v1/service_gateway.py`) -/

/-- `str.lstrip(".")`. -/
def lstrip_dots (s : String) : String :=
  String.mk (s.data.dropWhile (fun c => c == '.'))

/-- The extension part of `os.path.splitext` for a path without separators:
    everything from the final dot, provided some earlier character of the
    name is not a dot. -/
def splitext_ext (filename : String) : String :=
  let cs := filename.data
  match cs.reverse.findIdx? (fun c => c == '.') with
  | none => ""
  | some k =>
    let d := cs.length - 1 - k
    if (cs.take d).any (fun c => !(c == '.')) then String.mk (cs.drop d) else ""

/-- `validate_file_format`: vacuously true for an empty filename or format
    list, otherwise the lowercased, dot-stripped extension must be among
    the lowercased, dot-stripped allowed formats. -/
def validate_file_format (filename : String) (allowed_formats : List String) : Bool :=
  if filename = "" || allowed_formats = [] then true
  else
    (allowed_formats.map (fun fmt => lstrip_dots (py_lower fmt))).contains
      (lstrip_dots (py_lower (splitext_ext filename)))

/-- `validate_file_size`. -/
def validate_file_size (file_size max_size : Int) : Bool :=
  file_size ≤ max_size

example : splitext_ext "a.JPG" = ".JPG" := by decide
example : splitext_ext ".bashrc" = "" := by decide
example : validate_file_format "a.JPG" ["jpg"] = true := by decide
example : validate_file_format "a.bmp" ["jpg"] = false := by decide

/-- The file category assigned by the external `FileService`
    (`file_record.file_type`). -/
inductive UploadKind
  | image
  | video
  | other
deriving DecidableEq

/-- `file_type` as the string the source stores. -/
def UploadKind.as_str : UploadKind → String
  | .image => "image"
  | .video => "video"
  | .other => "other"

/-- The detection result dictionary as far as the endpoint reads it. -/
structure DetectionResult where
  total_detections : Int := 0
deriving DecidableEq

/-- The `ServiceDetectionResponse` body (HTTP 200 at the transport level). -/
structure DetectResponse where
  success : Bool
  result_total : Option Int := none
  processing_time : ℚ
  message : String
  request_id : String
deriving DecidableEq

/-- Transport-level outcome of the endpoint: an `HTTPException` escaping the
    handler, or a `ServiceDetectionResponse` returned with status 200. -/
inductive DetectOutcome
  | httpError (status : Int)
  | ok (resp : DetectResponse)
deriving DecidableEq

/-- HTTP status at the transport level. -/
def DetectOutcome.http_status : DetectOutcome → Int
  | .httpError s => s
  | .ok _ => 200

/-- `service_detect`: format validation (400), size validation (413), file
    intake (`save_uploaded_file`, abstracted as `save_result`), then the
    detection handler for images and videos (abstracted as
    `detect_result`); any non-`HTTPException` failure is converted to a
    `success := false` body still returned with HTTP 200, finalizing the
    `request.state.call_record` via `set_error` when that attribute exists;
    the success path finalizes it via `complete_call`. An unsupported file
    category raises 400. -/
def service_detect (service : PublishedService) (call_record : Option ServiceCall)
    (filename : String) (file_size : Int)
    (save_result : Except String UploadKind)
    (detect_result : Except String DetectionResult)
    (proc_time now : ℚ) (req_id : String) :
    DetectOutcome × Option ServiceCall :=
  if ¬ validate_file_format filename service.get_allowed_formats then
    (.httpError 400, call_record)
  else if ¬ validate_file_size file_size service.max_file_size then
    (.httpError 413, call_record)
  else
    match save_result with
    | .error e =>
      (.ok { success := false, processing_time := proc_time,
             message := "检测失败: " ++ e, request_id := req_id },
       call_record.map (fun r =>
         { r.set_error "DETECTION_ERROR" e 500 now with processing_time := some proc_time }))
    | .ok kind =>
      match kind with
      | .other => (.httpError 400, call_record)
      | .image =>
        match detect_result with
        | .error e =>
          (.ok { success := false, processing_time := proc_time,
                 message := "检测失败: " ++ e, request_id := req_id },
           call_record.map (fun r =>
             { r.set_error "DETECTION_ERROR" e 500 now with
               processing_time := some proc_time }))
        | .ok res =>
          (.ok { success := true, result_total := some res.total_detections,
                 processing_time := proc_time, message := "检测完成",
                 request_id := req_id },
           call_record.map (fun r =>
             { r.complete_call 200 true (some res.total_detections) (some proc_time) now with
               file_name := some filename, file_size := some file_size,
               file_type := some UploadKind.image.as_str }))
      | .video =>
        match detect_result with
        | .error e =>
          (.ok { success := false, processing_time := proc_time,
                 message := "检测失败: " ++ e, request_id := req_id },
           call_record.map (fun r =>
             { r.set_error "DETECTION_ERROR" e 500 now with
               processing_time := some proc_time }))
        | .ok res =>
          (.ok { success := true, result_total := some res.total_detections,
                 processing_time := proc_time, message := "检测完成",
                 request_id := req_id },
           call_record.map (fun r =>
             { r.complete_call 200 true (some res.total_detections) (some proc_time) now with
               file_name := some filename, file_size := some file_size,
               file_type := some UploadKind.video.as_str }))

/-- C9 counterexample: a request that reached the handler but uploads a
    file with a disallowed extension gets `HTTPException(400)` at the
    transport level, not HTTP 200 with a `success` field. -/
theorem detect_endpoint_http_error_counterexample :
    (service_detect { sampleService with allowed_formats := some ["jpg"] } none
        "a.bmp" 10 (.ok .image) (.ok {}) 1 6 "r1").1 = .httpError 400 ∧
    (service_detect { sampleService with allowed_formats := some ["jpg"] } none
        "a.bmp" 10 (.ok .image) (.ok {}) 1 6 "r1").1.http_status ≠ 200 := by
  decide

/-- C9 (amended): requests that pass the file-format and file-size
    validations and whose upload is stored as an image or video receive
    HTTP 200 at the transport level with the outcome (including
    detection-handler failure) carried only by the `success` field of the
    body; a failed format validation raises 400 and an oversized upload
    raises 413 instead. -/
theorem detect_endpoint_transport_200 :
    (∀ (service : PublishedService) (cr : Option ServiceCall) (filename : String)
       (file_size : Int) (save_result : Except String UploadKind)
       (detect_result : Except String DetectionResult) (proc_time now : ℚ)
       (req_id : String) (kind : UploadKind),
       validate_file_format filename service.get_allowed_formats = true →
       validate_file_size file_size service.max_file_size = true →
       save_result = .ok kind → kind ≠ .other →
       (service_detect service cr filename file_size save_result detect_result
           proc_time now req_id).1.http_status = 200 ∧
       ∃ resp, (service_detect service cr filename file_size save_result detect_result
           proc_time now req_id).1 = .ok resp ∧
         resp.success = detect_result.toOption.isSome) ∧
    (∀ (service : PublishedService) (cr : Option ServiceCall) (filename : String)
       (file_size : Int) (save_result : Except String UploadKind)
       (detect_result : Except String DetectionResult) (proc_time now : ℚ)
       (req_id : String),
       validate_file_format filename service.get_allowed_formats = false →
       (service_detect service cr filename file_size save_result detect_result
           proc_time now req_id).1 = .httpError 400) ∧
    (∀ (service : PublishedService) (cr : Option ServiceCall) (filename : String)
       (file_size : Int) (save_result : Except String UploadKind)
       (detect_result : Except String DetectionResult) (proc_time now : ℚ)
       (req_id : String),
       validate_file_format filename service.get_allowed_formats = true →
       validate_file_size file_size service.max_file_size = false →
       (service_detect service cr filename file_size save_result detect_result
           proc_time now req_id).1 = .httpError 413) := by
  refine ⟨?_, ?_, ?_⟩
  · intro service cr filename file_size save_result detect_result proc_time now req_id
      kind hfmt hsize hsave hkind
    subst hsave
    cases kind with
    | other => exact absurd rfl hkind
    | image =>
      cases detect_result with
      | error e =>
        simp [service_detect, hfmt, hsize, DetectOutcome.http_status, Except.toOption]
      | ok res =>
        simp [service_detect, hfmt, hsize, DetectOutcome.http_status, Except.toOption]
    | video =>
      cases detect_result with
      | error e =>
        simp [service_detect, hfmt, hsize, DetectOutcome.http_status, Except.toOption]
      | ok res =>
        simp [service_detect, hfmt, hsize, DetectOutcome.http_status, Except.toOption]
  · intro service cr filename file_size save_result detect_result proc_time now req_id hfmt
    simp [service_detect, hfmt]
  · intro service cr filename file_size save_result detect_result proc_time now req_id
      hfmt hsize
    simp [service_detect, hfmt, hsize]

/-- Witness for `detect_endpoint_transport_200`: a failing detection
    handler on a valid image upload still yields transport status 200 with
    `success := false`. -/
theorem detect_endpoint_transport_200_witness :
    (service_detect sampleService none "a.jpg" 10 (.ok .image)
        (.error "boom") 1 6 "r1").1.http_status = 200 := by
  exact (detect_endpoint_transport_200.1 sampleService none "a.jpg" 10 (.ok .image)
    (.error "boom") 1 6 "r1" .image (by decide) (by decide) rfl (by decide)).1

/-! ## End-to-end: one gateway-admitted request through middleware and
    detect endpoint (claim C3) -/

/-- Store with the valid `sampleToken` for `sampleService`. -/
def sampleDB : GatewayDB :=
  { services := [sampleService], tokens := [sampleToken], calls := [] }

/-- The detect endpoint as the middleware's `call_next`: a valid image
    upload "a.jpg", a successful handler with 2 detections. -/
def detectHandler : RequestState → Int := fun st =>
  (service_detect st.service st.call_record "a.jpg" 10 (.ok .image)
    (.ok { total_detections := 2 }) 1 6 "r1").1.http_status

/-- One full admitted request: fresh limiter, valid token, successful
    detection. -/
def e2eResult : GatewayResult × GatewayDB × RateLimiter :=
  dispatch idHash noJson detectHandler sampleRequest sampleDB (RateLimiter.init 0) 5 1 "r1"

/-- C3, evaluated at a failing input: a gateway-admitted request that
    succeeds end to end writes exactly one `ServiceCall` row, but that row
    is never finalized — its `completed_at` stays unset, because the
    middleware only creates the row after the response inside
    `_log_service_call` and nothing ever attaches a `call_record` to the
    request state, leaving the endpoint's `complete_call`/`set_error`
    branches dead (the middleware passes `call_record = none`, and with
    `none` the endpoint finalizes nothing). -/
theorem admitted_call_record_never_finalized :
    e2eResult.1.http_status = some 200 ∧
    e2eResult.2.1.calls.map ServiceCall.completed_at = [none] ∧
    e2eResult.2.1.calls.map ServiceCall.success = [true] ∧
    (service_detect sampleService none "a.jpg" 10 (.ok .image)
        (.ok { total_detections := 2 }) 1 6 "r1").2 = none := by
  have hauth : authenticate_request idHash sampleRequest "s1" sampleDB 5
      = some (sampleService, sampleToken.update_usage (some "9.9.9.9") 5,
          { services := [sampleService],
            tokens := [sampleToken.update_usage (some "9.9.9.9") 5], calls := [] }) := by
    norm_num +decide [authenticate_request, headers_get, py_lower, sampleRequest,
      truthy_str, sampleDB, sampleService, str_starts, py_drop, auth_token_loop,
      token_candidate, ServiceToken.verify_token, idHash, sampleToken, get_client_ip,
      ServiceToken.update_usage, py_to_int, py_strip, py_str_int, py_str_nat,
      nat_digits_aux]
  have hlim : limit_value_of (sampleToken.update_usage (some "9.9.9.9") 5)
      sampleService = 100 := by
    norm_num +decide [limit_value_of, truthy_str, ServiceToken.update_usage,
      sampleToken, sampleService]
  have hrl1 : ((RateLimiter.init 0).is_allowed
      (rate_limit_key "s1" ((sampleToken.update_usage (some "9.9.9.9") 5).id))
      100 60 5).1 = true := by
    norm_num +decide [RateLimiter.is_allowed, RateLimiter.init,
      RateLimiter.cleanup_interval, rate_limit_key, sampleToken,
      ServiceToken.update_usage]
  refine ⟨?_, ?_, ?_, by decide⟩ <;>
  · unfold e2eResult dispatch
    rw [if_neg (by decide),
      show extract_service_id sampleRequest.path = some "s1" from by decide]
    dsimp only
    rw [if_neg (by decide), hauth]
    dsimp only
    rw [if_neg (by decide), hlim, if_neg (by simp [hrl1])]
    decide

end VisionBox
